import Mathlib

/-!
# Verification of the `speedy_token` reward-ledger program

Shallow embedding of `src/contract.rs` (Anchor program `speedy_token`).
Machine integers (`u64`) are modelled as `Nat` with explicit checked
operations that fail when a result would leave `[0, 2^64)`; public keys
(`Pubkey`) are modelled as `Nat` identifiers.

Every instruction handler is embedded as a function from an explicit
state to `Except Err (state × emitted events)`.  Following the hosting
environment's transaction semantics (every Solana instruction either
commits wholly or aborts wholly), an `Except.error` result carries no
state: the pre-state persists unchanged, so "fails with no state change"
is expressed by the operation returning `.error e`.
-/

namespace SpeedyToken

/-- `2^64`, the number of values of the `u64` type. -/
def u64Size : Nat := 2 ^ 64

/-- Rust `u64::checked_add`: `none` when the sum would not fit in `u64`. -/
def checkedAdd (a b : Nat) : Option Nat :=
  if a + b < u64Size then some (a + b) else none

/-- Rust `u64::checked_mul`: `none` when the product would not fit in `u64`. -/
def checkedMul (a b : Nat) : Option Nat :=
  if a * b < u64Size then some (a * b) else none

/-- `TokenRates` (contract.rs lines 557-574): the 15 reward rates. -/
structure TokenRates where
  race_completion : Nat
  race_win : Nat
  distance_per_100m : Nat
  obstacle_avoided : Nat
  bonus_collected : Nat
  daily_challenge_easy : Nat
  daily_challenge_medium : Nat
  daily_challenge_hard : Nat
  tournament_participation : Nat
  tournament_winner : Nat
  welcome_bonus : Nat
  staking_per_hour_common : Nat
  staking_per_hour_rare : Nat
  staking_per_hour_epic : Nat
  staking_per_hour_legendary : Nat
deriving Repr, DecidableEq

/-- The initial rate table written by `initialize_token`
(contract.rs lines 28-44). -/
def defaultTokenRates : TokenRates where
  race_completion := 100000000
  race_win := 50000000
  distance_per_100m := 500000
  obstacle_avoided := 200000
  bonus_collected := 500000
  daily_challenge_easy := 50000000
  daily_challenge_medium := 100000000
  daily_challenge_hard := 200000000
  tournament_participation := 100000000
  tournament_winner := 1000000000
  welcome_bonus := 100000000
  staking_per_hour_common := 1000000
  staking_per_hour_rare := 3000000
  staking_per_hour_epic := 10000000
  staking_per_hour_legendary := 25000000

/-- `GameState` (contract.rs lines 542-551): the singleton ledger record. -/
structure GameState where
  authority : Nat
  token_mint : Nat
  vault : Nat
  total_distributed : Nat
  token_rates : TokenRates
  bump : Nat
  is_initialized : Bool
deriving Repr, DecidableEq

/-- `RaceStats` (contract.rs lines 580-590). -/
structure RaceStats where
  race_id : Nat
  completed : Bool
  won : Bool
  distance : Nat
  obstacles_avoided : Nat
  bonus_boxes_collected : Nat
  lap_time : Nat
  score : Nat
deriving Repr, DecidableEq

/-- `ChallengeDifficulty` (contract.rs lines 593-598). -/
inductive ChallengeDifficulty
  | Easy
  | Medium
  | Hard
deriving Repr, DecidableEq

/-- `TournamentPlacement` (contract.rs lines 600-604). -/
inductive TournamentPlacement
  | Part
  | Winner
deriving Repr, DecidableEq

/-- `CarRarity` (contract.rs lines 606-612). -/
inductive CarRarity
  | Common
  | Rare
  | Epic
  | Legendary
deriving Repr, DecidableEq

/-- `RewardType` (contract.rs lines 614-621). -/
inductive RewardType
  | RaceCompletion
  | DailyChallenge
  | Tournament
  | WelcomeBonus
  | Staking
deriving Repr, DecidableEq

/-- `SpendType` (contract.rs lines 623-629). -/
inductive SpendType
  | TournamentEntry
  | CarUpgrade
  | CarCustomization
  | StakingBoost
deriving Repr, DecidableEq

/-- `ErrorCode` (contract.rs lines 650-662): the program's own error enum. -/
inductive ErrorCode
  | Unauthorized
  | InsufficientBalance
  | InvalidRewardAmount
  | GameStateNotInitialized
  | InsufficientVaultBalance
deriving Repr, DecidableEq

/-- Failure of the external fungible-asset ledger (the SPL token program,
out of repository scope).  Modelled from the spec: §6 specifies its
`transfer`/`burn` interface as failing only with `InsufficientFunds`. -/
inductive TokenError
  | insufficientFunds
deriving Repr, DecidableEq

/-- Failure raised by the hosting environment's account machinery before a
handler body runs; `accountAlreadyInUse` is the rejection produced by the
`#[account(init, ...)]` constraint (contract.rs lines 412-419) when the
`game_state` account already exists. -/
inductive EnvError
  | accountAlreadyInUse
deriving Repr, DecidableEq

/-- Any error an instruction of this program can surface. -/
inductive Err
  | program (e : ErrorCode)
  | token (e : TokenError)
  | env (e : EnvError)
deriving Repr, DecidableEq

/-- `TokenReward` event (contract.rs lines 632-639). -/
structure TokenReward where
  player : Nat
  amount : Nat
  reward_type : RewardType
  race_id : Nat
  timestamp : Int
deriving Repr, DecidableEq

/-- `TokenSpend` event (contract.rs lines 641-647). -/
structure TokenSpend where
  player : Nat
  amount : Nat
  spend_type : SpendType
  timestamp : Int
deriving Repr, DecidableEq

/-- An entry of the append-only event log. -/
inductive Event
  | reward (r : TokenReward)
  | tokenSpend (s : TokenSpend)
deriving Repr, DecidableEq

/-- The state an instruction touches: the `game_state` account, whether it
exists (it is created exactly once, by `initialize_token`), the vault's
token balance, and the balance of the other token account involved
(the player's associated token account for award/spend instructions,
the authority's for `fund_vault`). -/
structure St where
  gs : GameState
  gsExists : Bool
  vaultBal : Nat
  acctBal : Nat
deriving Repr, DecidableEq

/-- Modelled from the spec: §6's `transfer(from, to, amount, authorizer)` of
the external asset-ledger primitive — atomic, failing exactly when the
source balance is insufficient.  Returns the new (source, destination)
balances. -/
def splTransfer (fromBal toBal amount : Nat) : Except Err (Nat × Nat) :=
  if amount ≤ fromBal then .ok (fromBal - amount, toBal + amount)
  else .error (.token .insufficientFunds)

/-- Modelled from the spec: §6's `burn(from, amount, authorizer)` of the
external asset-ledger primitive.  Returns the new source balance. -/
def splBurn (bal amount : Nat) : Except Err Nat :=
  if amount ≤ bal then .ok (bal - amount)
  else .error (.token .insufficientFunds)

/-- Lift a checked-arithmetic result into `Except`, mirroring Rust's
`.ok_or(err)?`. -/
def okOr (o : Option Nat) (e : Err) : Except Err Nat :=
  match o with
  | some v => .ok v
  | none => .error e

/-- The reward computation of `award_race_tokens` (contract.rs lines
81-111): each checked add/mul failure short-circuits; in the source every
one of them maps to `ErrorCode::InvalidRewardAmount`, so the chain is
embedded in the `Option` monad and the single error attached at the end
by `raceRewardAmount`.  `checked_div(100).unwrap_or(0)` never takes the
`unwrap_or` branch (the divisor is the constant 100), hence plain `/`. -/
def raceRewardCalc (rates : TokenRates) (stats : RaceStats) : Option Nat :=
  (if stats.completed then checkedAdd 0 rates.race_completion else some 0).bind
    fun r1 =>
  (if stats.won then checkedAdd r1 rates.race_win else some r1).bind fun r2 =>
  (checkedMul (stats.distance / 100) rates.distance_per_100m).bind
    fun distance_bonus =>
  (checkedAdd r2 distance_bonus).bind fun r3 =>
  (checkedMul stats.obstacles_avoided rates.obstacle_avoided).bind
    fun obstacle_bonus =>
  (checkedAdd r3 obstacle_bonus).bind fun r4 =>
  (checkedMul stats.bonus_boxes_collected rates.bonus_collected).bind
    fun bonus_reward =>
  checkedAdd r4 bonus_reward

/-- The race reward with the source's error attached (contract.rs lines
81-111). -/
def raceRewardAmount (rates : TokenRates) (stats : RaceStats) : Except Err Nat :=
  okOr (raceRewardCalc rates stats) (.program .InvalidRewardAmount)

/-- The challenge-difficulty rate lookup (contract.rs lines 155-159). -/
def challengeAmount (rates : TokenRates) : ChallengeDifficulty → Nat
  | .Easy => rates.daily_challenge_easy
  | .Medium => rates.daily_challenge_medium
  | .Hard => rates.daily_challenge_hard

/-- The tournament-placement rate lookup (contract.rs lines 202-205). -/
def tournamentAmount (rates : TokenRates) : TournamentPlacement → Nat
  | .Part => rates.tournament_participation
  | .Winner => rates.tournament_winner

/-- The staking hourly-rate lookup (contract.rs lines 285-290). -/
def stakingHourlyRate (rates : TokenRates) : CarRarity → Nat
  | .Common => rates.staking_per_hour_common
  | .Rare => rates.staking_per_hour_rare
  | .Epic => rates.staking_per_hour_epic
  | .Legendary => rates.staking_per_hour_legendary

/-- The payout tail shared verbatim by all five award handlers
(e.g. contract.rs lines 113-141 in `award_race_tokens`): require the
vault to hold at least the reward (`InsufficientVaultBalance`
otherwise), transfer it from the vault to the player via
`transfer_tokens_from_vault` (lines 371-395), add it to
`total_distributed` with `checked_add`, and emit one `TokenReward`. -/
def payout (st : St) (player amount : Nat) (rt : RewardType) (rid : Nat)
    (now : Int) : Except Err (St × List Event) :=
  if st.vaultBal ≥ amount then
    match splTransfer st.vaultBal st.acctBal amount with
    | .error e => .error e
    | .ok (v', p') =>
      match checkedAdd st.gs.total_distributed amount with
      | none => .error (.program .InvalidRewardAmount)
      | some td =>
        .ok ({ st with vaultBal := v', acctBal := p',
                       gs := { st.gs with total_distributed := td } },
             [.reward { player := player, amount := amount,
                        reward_type := rt, race_id := rid,
                        timestamp := now }])
  else .error (.program .InsufficientVaultBalance)

/-- `award_race_tokens` (contract.rs lines 76-145). -/
def award_race_tokens (st : St) (player : Nat) (stats : RaceStats)
    (now : Int) : Except Err (St × List Event) := do
  let total_reward ← raceRewardAmount st.gs.token_rates stats
  payout st player total_reward .RaceCompletion stats.race_id now

/-- `award_challenge_tokens` (contract.rs lines 148-192). -/
def award_challenge_tokens (st : St) (player : Nat)
    (d : ChallengeDifficulty) (cid : Nat) (now : Int) :
    Except Err (St × List Event) :=
  payout st player (challengeAmount st.gs.token_rates d) .DailyChallenge cid now

/-- `award_tournament_tokens` (contract.rs lines 195-236). -/
def award_tournament_tokens (st : St) (player : Nat)
    (p : TournamentPlacement) (tid : Nat) (now : Int) :
    Except Err (St × List Event) :=
  payout st player (tournamentAmount st.gs.token_rates p) .Tournament tid now

/-- `award_welcome_bonus` (contract.rs lines 239-274). -/
def award_welcome_bonus (st : St) (player : Nat) (now : Int) :
    Except Err (St × List Event) :=
  payout st player st.gs.token_rates.welcome_bonus .WelcomeBonus 0 now

/-- `award_staking_tokens` (contract.rs lines 277-324). -/
def award_staking_tokens (st : St) (player : Nat) (r : CarRarity)
    (hours_staked car_id : Nat) (now : Int) : Except Err (St × List Event) := do
  let reward_amount ←
    okOr (checkedMul (stakingHourlyRate st.gs.token_rates r) hours_staked)
      (.program .InvalidRewardAmount)
  payout st player reward_amount .Staking car_id now

/-- `fund_vault` (contract.rs lines 51-73): admin-gated transfer from the
authority's token account into the vault. -/
def fund_vault (st : St) (caller amount : Nat) : Except Err (St × List Event) :=
  if caller = st.gs.authority then
    match splTransfer st.acctBal st.vaultBal amount with
    | .error e => .error e
    | .ok (a', v') => .ok ({ st with acctBal := a', vaultBal := v' }, [])
  else .error (.program .Unauthorized)

/-- `spend_tokens` (contract.rs lines 327-352): burns from the player's own
account and emits one `TokenSpend`. -/
def spend_tokens (st : St) (player amount : Nat) (ty : SpendType)
    (now : Int) : Except Err (St × List Event) :=
  match splBurn st.acctBal amount with
  | .error e => .error e
  | .ok p' =>
    .ok ({ st with acctBal := p' },
         [.tokenSpend { player := player, amount := amount,
                        spend_type := ty, timestamp := now }])

/-- `update_token_rates` (contract.rs lines 355-367): admin-gated wholesale
replacement of the rate table. -/
def update_token_rates (st : St) (caller : Nat) (new_rates : TokenRates) :
    Except Err (St × List Event) :=
  if caller = st.gs.authority then
    .ok ({ st with gs := { st.gs with token_rates := new_rates } }, [])
  else .error (.program .Unauthorized)

/-- The caller-supplied account inputs of `initialize_token`. -/
structure InitArgs where
  authority : Nat
  token_mint : Nat
  vault : Nat
  bump : Nat
deriving Repr, DecidableEq

/-- `initialize_token` (contract.rs lines 15-48) together with the
`#[account(init, ...)]` constraint on `game_state` (lines 412-419): the
environment rejects the instruction with an account-already-in-use
failure when the `game_state` account already exists — this, not any
flag check inside the handler body, is what stops a second
initialization.  On the first call the handler writes every `GameState`
field, sets `total_distributed := 0`, the default rate table and
`is_initialized := true`; the freshly created vault starts empty. -/
def initialize_token (st : St) (a : InitArgs) : Except Err St :=
  if st.gsExists then .error (.env .accountAlreadyInUse)
  else
    .ok { gs := { authority := a.authority, token_mint := a.token_mint,
                  vault := a.vault, total_distributed := 0,
                  token_rates := defaultTokenRates, bump := a.bump,
                  is_initialized := true },
          gsExists := true, vaultBal := 0, acctBal := st.acctBal }

/-- The non-initialize public instructions, with their inputs. -/
inductive Op
  | fundVault (caller amount : Nat)
  | awardRace (player : Nat) (stats : RaceStats) (now : Int)
  | awardChallenge (player : Nat) (d : ChallengeDifficulty) (cid : Nat) (now : Int)
  | awardTournament (player : Nat) (p : TournamentPlacement) (tid : Nat) (now : Int)
  | awardWelcome (player : Nat) (now : Int)
  | awardStaking (player : Nat) (r : CarRarity) (hours cid : Nat) (now : Int)
  | spendOp (player amount : Nat) (ty : SpendType) (now : Int)
  | updateRates (caller : Nat) (rates : TokenRates)
deriving Repr, DecidableEq

/-- Dispatch an instruction to its handler. -/
def runOp (op : Op) (st : St) : Except Err (St × List Event) :=
  match op with
  | .fundVault caller amount => fund_vault st caller amount
  | .awardRace player stats now => award_race_tokens st player stats now
  | .awardChallenge player d cid now => award_challenge_tokens st player d cid now
  | .awardTournament player p tid now => award_tournament_tokens st player p tid now
  | .awardWelcome player now => award_welcome_bonus st player now
  | .awardStaking player r hours cid now => award_staking_tokens st player r hours cid now
  | .spendOp player amount ty now => spend_tokens st player amount ty now
  | .updateRates caller rates => update_token_rates st caller rates

/-- The five payout instructions. -/
def Op.isAward : Op → Bool
  | .awardRace _ _ _ => true
  | .awardChallenge _ _ _ _ => true
  | .awardTournament _ _ _ _ => true
  | .awardWelcome _ _ => true
  | .awardStaking _ _ _ _ _ => true
  | _ => false

/-- A ledger state as it stands right after a successful initialization
followed by a vault funding of `10^12` units: used to instantiate the
universally quantified theorems below on concrete inputs. -/
def sampleSt : St :=
  { gs := { authority := 1, token_mint := 2, vault := 3, total_distributed := 0,
            token_rates := defaultTokenRates, bump := 254, is_initialized := true },
    gsExists := true, vaultBal := 1000000000000, acctBal := 0 }

/-- The race of the spec's worked example (§8). -/
def sampleStats : RaceStats :=
  { race_id := 9, completed := true, won := true, distance := 250,
    obstacles_avoided := 3, bonus_boxes_collected := 2, lap_time := 0, score := 0 }

section Helpers

theorem checkedAdd_eq_some {a b c : Nat} :
    checkedAdd a b = some c ↔ a + b < u64Size ∧ c = a + b := by
  unfold checkedAdd
  split <;> simp_all
  omega

theorem checkedMul_eq_some {a b c : Nat} :
    checkedMul a b = some c ↔ a * b < u64Size ∧ c = a * b := by
  unfold checkedMul
  split <;> simp_all
  omega

theorem exceptBind_ok {α β : Type} {m : Except Err α} {f : α → Except Err β}
    {y : β} (h : (m >>= f) = .ok y) : ∃ a, m = .ok a ∧ f a = .ok y := by
  cases m with
  | error e => simp [Bind.bind, Except.bind] at h
  | ok a => exact ⟨a, rfl, by simpa [Bind.bind, Except.bind] using h⟩

theorem okOr_eq_ok {o : Option Nat} {e : Err} {v : Nat}
    (h : okOr o e = .ok v) : o = some v := by
  unfold okOr at h
  cases o <;> simp_all

/-- Everything a successful run of the shared payout tail guarantees. -/
theorem payout_ok {st : St} {player amount : Nat} {rt : RewardType}
    {rid : Nat} {now : Int} {s' : St} {evs : List Event}
    (h : payout st player amount rt rid now = .ok (s', evs)) :
    evs = [.reward { player := player, amount := amount, reward_type := rt,
                     race_id := rid, timestamp := now }] ∧
    amount ≤ st.vaultBal ∧
    s'.vaultBal + amount = st.vaultBal ∧
    s'.acctBal = st.acctBal + amount ∧
    s'.gs.total_distributed = st.gs.total_distributed + amount := by
  unfold payout splTransfer at h
  split at h
  case isFalse => exact absurd h (by simp)
  case isTrue hge =>
    rcases hadd : checkedAdd st.gs.total_distributed amount with _ | td <;>
      rw [hadd] at h
    · exact absurd h (by simp)
    · obtain ⟨hlt, htd⟩ := checkedAdd_eq_some.mp hadd
      obtain ⟨hs, he⟩ := by
        have := h
        simpa using this
      subst hs
      refine ⟨by simp [he], hge, by simp; omega, by simp, by simp [htd]⟩

/-- The payout tail refuses any amount exceeding the vault balance. -/
theorem payout_insufficient (st : St) (player amount : Nat) (rt : RewardType)
    (rid : Nat) (now : Int) (h : st.vaultBal < amount) :
    payout st player amount rt rid now =
      .error (.program .InsufficientVaultBalance) := by
  unfold payout
  rw [if_neg (by omega)]

/-- Everything a successful run of any of the five award instructions
guarantees: exactly one reward record, solvency of the vault before the
transfer, exact conservation of the moved amount, and the counter
increasing by exactly that amount. -/
theorem award_ok {op : Op} {st s' : St} {evs : List Event}
    (ha : op.isAward = true) (h : runOp op st = .ok (s', evs)) :
    ∃ r : TokenReward, evs = [.reward r] ∧ r.amount ≤ st.vaultBal ∧
      s'.vaultBal + r.amount = st.vaultBal ∧
      s'.acctBal = st.acctBal + r.amount ∧
      s'.gs.total_distributed = st.gs.total_distributed + r.amount := by
  cases op with
  | awardRace player stats now =>
    rw [runOp] at h
    unfold award_race_tokens at h
    obtain ⟨a, _, hp⟩ := exceptBind_ok h
    obtain ⟨hev, h1, h2, h3, h4⟩ := payout_ok hp
    exact ⟨_, hev, h1, h2, h3, h4⟩
  | awardChallenge player d cid now =>
    rw [runOp] at h
    unfold award_challenge_tokens at h
    obtain ⟨hev, h1, h2, h3, h4⟩ := payout_ok h
    exact ⟨_, hev, h1, h2, h3, h4⟩
  | awardTournament player p tid now =>
    rw [runOp] at h
    unfold award_tournament_tokens at h
    obtain ⟨hev, h1, h2, h3, h4⟩ := payout_ok h
    exact ⟨_, hev, h1, h2, h3, h4⟩
  | awardWelcome player now =>
    rw [runOp] at h
    unfold award_welcome_bonus at h
    obtain ⟨hev, h1, h2, h3, h4⟩ := payout_ok h
    exact ⟨_, hev, h1, h2, h3, h4⟩
  | awardStaking player r hours cid now =>
    rw [runOp] at h
    unfold award_staking_tokens at h
    obtain ⟨a, _, hp⟩ := exceptBind_ok h
    obtain ⟨hev, h1, h2, h3, h4⟩ := payout_ok hp
    exact ⟨_, hev, h1, h2, h3, h4⟩
  | fundVault caller amount => simp [Op.isAward] at ha
  | spendOp player amount ty now => simp [Op.isAward] at ha
  | updateRates caller rates => simp [Op.isAward] at ha

/-- The race-reward chain of checked operations computes exactly the
spec's closed formula whenever it succeeds. -/
theorem raceRewardCalc_eq {rates : TokenRates} {stats : RaceStats} {v : Nat}
    (h : raceRewardCalc rates stats = some v) :
    v = (if stats.completed then rates.race_completion else 0) +
        (if stats.won then rates.race_win else 0) +
        stats.distance / 100 * rates.distance_per_100m +
        stats.obstacles_avoided * rates.obstacle_avoided +
        stats.bonus_boxes_collected * rates.bonus_collected := by
  unfold raceRewardCalc at h
  simp only [Option.bind_eq_some] at h
  obtain ⟨r1, hr1, r2, hr2, db, hdb, r3, hr3, ob, hob, r4, hr4, br, hbr, hfin⟩ := h
  rw [checkedMul_eq_some] at hdb hob hbr
  rw [checkedAdd_eq_some] at hr3 hr4 hfin
  obtain ⟨-, hdb⟩ := hdb
  obtain ⟨-, hob⟩ := hob
  obtain ⟨-, hbr⟩ := hbr
  obtain ⟨-, hr3⟩ := hr3
  obtain ⟨-, hr4⟩ := hr4
  obtain ⟨-, hfin⟩ := hfin
  have e1 : r1 = (if stats.completed then rates.race_completion else 0) := by
    split at hr1
    case isTrue hcpl =>
      rw [checkedAdd_eq_some] at hr1
      simp [hcpl]
      omega
    case isFalse hcpl =>
      simp at hr1
      simp [hcpl]
      omega
  have e2 : r2 = r1 + (if stats.won then rates.race_win else 0) := by
    split at hr2
    case isTrue hwon =>
      rw [checkedAdd_eq_some] at hr2
      simp [hwon]
      omega
    case isFalse hwon =>
      simp at hr2
      simp [hwon]
      omega
  subst hdb hob hbr hr3 hr4 hfin e1 e2
  ring

theorem okOr_eq_error {o : Option Nat} {e0 e : Err} (h : okOr o e0 = .error e) :
    e = e0 := by
  unfold okOr at h
  cases o <;> simp_all

theorem splTransfer_error {a b c : Nat} {e : Err}
    (h : splTransfer a b c = .error e) : e = .token .insufficientFunds := by
  unfold splTransfer at h
  split at h <;> simp_all

theorem splBurn_error {a c : Nat} {e : Err}
    (h : splBurn a c = .error e) : e = .token .insufficientFunds := by
  unfold splBurn at h
  split at h <;> simp_all

theorem exceptBind_error {α β : Type} {m : Except Err α} {f : α → Except Err β}
    {e : Err} (h : (m >>= f) = .error e) :
    m = .error e ∨ ∃ a, m = .ok a ∧ f a = .error e := by
  cases m with
  | error e2 =>
    left
    simp only [Bind.bind, Except.bind] at h
    injection h with h
    rw [h]
  | ok a =>
    right
    exact ⟨a, rfl, by simpa [Bind.bind, Except.bind] using h⟩

/-- The only errors the shared payout tail can produce. -/
theorem payout_error {st : St} {player amount : Nat} {rt : RewardType}
    {rid : Nat} {now : Int} {e : Err}
    (h : payout st player amount rt rid now = .error e) :
    e = .program .InsufficientVaultBalance ∨
    e = .program .InvalidRewardAmount ∨ e = .token .insufficientFunds := by
  unfold payout splTransfer at h
  split at h
  case isFalse => simp_all
  case isTrue hge =>
    rcases hadd : checkedAdd st.gs.total_distributed amount with _ | td <;>
      rw [hadd] at h <;> simp_all

end Helpers

/-- A freshly deployed, never-initialized state. -/
def freshSt : St :=
  { gs := { authority := 0, token_mint := 0, vault := 0, total_distributed := 0,
            token_rates := defaultTokenRates, bump := 0, is_initialized := false },
    gsExists := false, vaultBal := 0, acctBal := 0 }

/-- The account inputs of the sample first initialization. -/
def initArgsA : InitArgs :=
  { authority := 1, token_mint := 2, vault := 3, bump := 254 }

/-- The state `initialize_token` produces from `freshSt` and `initArgsA`. -/
def initializedSt : St :=
  { gs := { authority := 1, token_mint := 2, vault := 3, total_distributed := 0,
            token_rates := defaultTokenRates, bump := 254, is_initialized := true },
    gsExists := true, vaultBal := 0, acctBal := 0 }

/-- `sampleSt` after a successful welcome-bonus payout to player 7. -/
def sampleAfterWelcome : St :=
  { gs := { authority := 1, token_mint := 2, vault := 3,
            total_distributed := 100000000,
            token_rates := defaultTokenRates, bump := 254, is_initialized := true },
    gsExists := true, vaultBal := 999900000000, acctBal := 100000000 }

/-- The reward record of that welcome-bonus payout. -/
def sampleWelcomeReward : TokenReward :=
  { player := 7, amount := 100000000, reward_type := .WelcomeBonus,
    race_id := 0, timestamp := 0 }

/-- `sampleSt` after a successful 10-hour Legendary staking payout. -/
def sampleAfterStaking : St :=
  { gs := { authority := 1, token_mint := 2, vault := 3,
            total_distributed := 250000000,
            token_rates := defaultTokenRates, bump := 254, is_initialized := true },
    gsExists := true, vaultBal := 999750000000, acctBal := 250000000 }

/-- A rate table distinct from the default in every field. -/
def altRates : TokenRates where
  race_completion := 1
  race_win := 2
  distance_per_100m := 3
  obstacle_avoided := 4
  bonus_collected := 5
  daily_challenge_easy := 6
  daily_challenge_medium := 7
  daily_challenge_hard := 8
  tournament_participation := 9
  tournament_winner := 10
  welcome_bonus := 11
  staking_per_hour_common := 12
  staking_per_hour_rare := 13
  staking_per_hour_epic := 14
  staking_per_hour_legendary := 15

/-- C1: the race award computes the reward as
`(completed ? race_completion : 0) + (won ? race_win : 0)
 + floor(distance/100) * distance_per_100m
 + obstacles_avoided * obstacle_avoided
 + bonus_boxes_collected * bonus_collected`
for every rate table and every `RaceStats` input on which the checked
arithmetic succeeds, and on the default rates the spec's worked example
(completed, won, distance 250, 3 obstacles, 2 bonus boxes) yields
exactly 152600000. -/
theorem race_reward_formula :
    (∀ (rates : TokenRates) (stats : RaceStats) (v : Nat),
       raceRewardAmount rates stats = .ok v →
       v = (if stats.completed then rates.race_completion else 0) +
           (if stats.won then rates.race_win else 0) +
           stats.distance / 100 * rates.distance_per_100m +
           stats.obstacles_avoided * rates.obstacle_avoided +
           stats.bonus_boxes_collected * rates.bonus_collected) ∧
    raceRewardAmount defaultTokenRates sampleStats = .ok 152600000 := by
  constructor
  · intro rates stats v h
    exact raceRewardCalc_eq (okOr_eq_ok h)
  · rfl

theorem race_reward_formula_witness :
    (152600000 : Nat) =
      (if sampleStats.completed then defaultTokenRates.race_completion else 0) +
      (if sampleStats.won then defaultTokenRates.race_win else 0) +
      sampleStats.distance / 100 * defaultTokenRates.distance_per_100m +
      sampleStats.obstacles_avoided * defaultTokenRates.obstacle_avoided +
      sampleStats.bonus_boxes_collected * defaultTokenRates.bonus_collected :=
  race_reward_formula.1 defaultTokenRates sampleStats 152600000 (by rfl)

/-- C2: the staking award is `rate_table[rarity] * hours_staked` with a
checked multiply: whenever the product does not fit in `u64`, the
instruction fails with the overflow error (named `ArithmeticOverflow` in
the spec, `ErrorCode::InvalidRewardAmount` in the source) and, an error
aborting the whole transaction, with no transfer, no counter update and
no log record; with the default Legendary rate 25000000 and 10 hours the
payout succeeds and moves exactly 250000000. -/
theorem staking_reward_checked :
    (∀ (st : St) (player : Nat) (r : CarRarity) (hours cid : Nat) (now : Int),
       u64Size ≤ stakingHourlyRate st.gs.token_rates r * hours →
       runOp (.awardStaking player r hours cid now) st =
         .error (.program .InvalidRewardAmount)) ∧
    checkedMul defaultTokenRates.staking_per_hour_legendary 10 =
      some 250000000 ∧
    runOp (.awardStaking 7 .Legendary 10 5 0) sampleSt =
      .ok (sampleAfterStaking,
           [.reward { player := 7, amount := 250000000, reward_type := .Staking,
                      race_id := 5, timestamp := 0 }]) := by
  refine ⟨?_, by decide, by rfl⟩
  intro st player r hours cid now h
  simp only [runOp]
  unfold award_staking_tokens
  have hm : checkedMul (stakingHourlyRate st.gs.token_rates r) hours = none := by
    unfold checkedMul
    rw [if_neg (by omega)]
  rw [hm]
  simp [okOr, Bind.bind, Except.bind]

theorem staking_reward_checked_witness :
    runOp (.awardStaking 7 .Legendary (u64Size - 1) 5 0) sampleSt =
      .error (.program .InvalidRewardAmount) :=
  staking_reward_checked.1 sampleSt 7 .Legendary (u64Size - 1) 5 0 (by decide)

/-- C3: every payout instruction is solvency-checked and atomic: on
success exactly the reward amount moves from the vault (whose prior
balance it never exceeds, so the vault is never overdrawn) to the
player; and the shared payout tail refuses, with
`InsufficientVaultBalance` (the spec's `InsufficientPoolBalance`), any
amount exceeding the vault's balance — an error result carries no
successor state, so nothing moves. -/
theorem payout_solvency :
    (∀ (op : Op) (st s' : St) (evs : List Event),
       op.isAward = true → runOp op st = .ok (s', evs) →
       ∃ r : TokenReward, evs = [.reward r] ∧ r.amount ≤ st.vaultBal ∧
         s'.vaultBal + r.amount = st.vaultBal ∧
         s'.acctBal = st.acctBal + r.amount) ∧
    (∀ (st : St) (player amount : Nat) (rt : RewardType) (rid : Nat) (now : Int),
       st.vaultBal < amount →
       payout st player amount rt rid now =
         .error (.program .InsufficientVaultBalance)) := by
  constructor
  · intro op st s' evs ha h
    obtain ⟨r, hev, h1, h2, h3, _⟩ := award_ok ha h
    exact ⟨r, hev, h1, h2, h3⟩
  · exact payout_insufficient

theorem payout_solvency_witness :
    (∃ r : TokenReward,
       [Event.reward sampleWelcomeReward] = [.reward r] ∧
       r.amount ≤ sampleSt.vaultBal ∧
       sampleAfterWelcome.vaultBal + r.amount = sampleSt.vaultBal ∧
       sampleAfterWelcome.acctBal = sampleSt.acctBal + r.amount) ∧
    payout sampleSt 7 1000000000001 .WelcomeBonus 0 0 =
      .error (.program .InsufficientVaultBalance) :=
  ⟨payout_solvency.1 (.awardWelcome 7 0) sampleSt sampleAfterWelcome
     [Event.reward sampleWelcomeReward] (by decide) (by rfl),
   payout_solvency.2 sampleSt 7 1000000000001 .WelcomeBonus 0 0 (by decide)⟩

/-- C4: `fund_vault` and `update_token_rates` reject every caller other
than the stored admin authority with `Unauthorized`, for every funding
amount and every rate table; the error carries no successor state, so
rates and balances stay as they were. -/
theorem admin_gate :
    ∀ (st : St) (caller : Nat), caller ≠ st.gs.authority →
      (∀ amount : Nat,
         runOp (.fundVault caller amount) st = .error (.program .Unauthorized)) ∧
      (∀ rates : TokenRates,
         runOp (.updateRates caller rates) st =
           .error (.program .Unauthorized)) := by
  intro st caller h
  constructor
  · intro amount
    simp [runOp, fund_vault, h]
  · intro rates
    simp [runOp, update_token_rates, h]

theorem admin_gate_witness :
    runOp (.fundVault 4 1000) sampleSt = .error (.program .Unauthorized) ∧
    runOp (.updateRates 4 altRates) sampleSt = .error (.program .Unauthorized) :=
  ⟨(admin_gate sampleSt 4 (by decide)).1 1000,
   (admin_gate sampleSt 4 (by decide)).2 altRates⟩

/-- C5: initializing a second time on a ledger whose first initialization
succeeded (so its `game_state` account exists and `is_initialized` is
true) fails, and the rate table and authority from the first call are
preserved (an error result carries no successor state).  The rejection
the spec names `AlreadyInitialized` is raised by the environment's
`#[account(init)]` constraint — the account already being in use — not
by any error code of the program's own `ErrorCode` enum. -/
theorem double_init_rejected :
    ∀ (st st' : St) (a a2 : InitArgs),
      initialize_token st a = .ok st' →
      initialize_token st' a2 = .error (.env .accountAlreadyInUse) ∧
      st'.gs.authority = a.authority ∧
      st'.gs.token_rates = defaultTokenRates ∧
      st'.gs.is_initialized = true ∧
      st'.gsExists = true := by
  intro st st' a a2 h
  unfold initialize_token at h
  split at h
  · exact absurd h (by simp)
  · rw [Except.ok.injEq] at h
    subst h
    unfold initialize_token
    simp

theorem fund_vault_frame {st s' : St} {caller amount : Nat} {evs : List Event}
    (h : fund_vault st caller amount = .ok (s', evs)) :
    s'.gs = st.gs ∧ evs = [] := by
  unfold fund_vault at h
  split at h
  · rcases htr : splTransfer st.acctBal st.vaultBal amount with e2 | ⟨a', v'⟩ <;>
      rw [htr] at h
    · exact absurd h (by simp)
    · rw [Except.ok.injEq, Prod.mk.injEq] at h
      obtain ⟨h1, h2⟩ := h
      subst h1
      exact ⟨rfl, h2.symm⟩
  · exact absurd h (by simp)

theorem spend_tokens_frame {st s' : St} {player amount : Nat} {ty : SpendType}
    {now : Int} {evs : List Event}
    (h : spend_tokens st player amount ty now = .ok (s', evs)) :
    s'.gs = st.gs := by
  unfold spend_tokens splBurn at h
  split at h
  · exact absurd h (by simp)
  · rw [Except.ok.injEq, Prod.mk.injEq] at h
    obtain ⟨h1, -⟩ := h
    subst h1
    rfl

theorem update_rates_frame {st s' : St} {caller : Nat} {rates : TokenRates}
    {evs : List Event}
    (h : update_token_rates st caller rates = .ok (s', evs)) :
    s'.gs.total_distributed = st.gs.total_distributed := by
  unfold update_token_rates at h
  split at h
  · rw [Except.ok.injEq, Prod.mk.injEq] at h
    obtain ⟨h1, -⟩ := h
    subst h1
    rfl
  · exact absurd h (by simp)

theorem double_init_rejected_witness :
    initialize_token initializedSt initArgsA =
      .error (.env .accountAlreadyInUse) ∧
    initializedSt.gs.authority = initArgsA.authority ∧
    initializedSt.gs.token_rates = defaultTokenRates ∧
    initializedSt.gs.is_initialized = true ∧
    initializedSt.gsExists = true :=
  double_init_rejected freshSt initializedSt initArgsA initArgsA (by rfl)

/-- C6: every successful payout of amount A increases `total_distributed`
by exactly A and emits exactly one `TokenReward` record carrying amount
A; a failed payout returns an error, which carries no successor state —
no counter change and no record. -/
theorem payout_counter_log :
    ∀ (op : Op) (st s' : St) (evs : List Event),
      op.isAward = true → runOp op st = .ok (s', evs) →
      ∃ r : TokenReward, evs = [.reward r] ∧
        s'.gs.total_distributed = st.gs.total_distributed + r.amount := by
  intro op st s' evs ha h
  obtain ⟨r, hev, -, -, -, h5⟩ := award_ok ha h
  exact ⟨r, hev, h5⟩

theorem payout_counter_log_witness :
    ∃ r : TokenReward,
      [Event.reward { player := 7, amount := 250000000, reward_type := .Staking,
                      race_id := 5, timestamp := 0 }] = [.reward r] ∧
      sampleAfterStaking.gs.total_distributed =
        sampleSt.gs.total_distributed + r.amount :=
  payout_counter_log (.awardStaking 7 .Legendary 10 5 0) sampleSt
    sampleAfterStaking
    [Event.reward { player := 7, amount := 250000000, reward_type := .Staking,
                    race_id := 5, timestamp := 0 }]
    (by decide) (by rfl)

/-- C7: `total_distributed` never decreases across any operation: every
successful instruction leaves it equal or larger (errors leave the state
untouched), and the non-payout instructions — `fund_vault`,
`spend_tokens`, `update_token_rates` — leave it exactly unchanged. -/
theorem total_distributed_monotone :
    (∀ (op : Op) (st s' : St) (evs : List Event),
       runOp op st = .ok (s', evs) →
       st.gs.total_distributed ≤ s'.gs.total_distributed) ∧
    (∀ (op : Op) (st s' : St) (evs : List Event), op.isAward = false →
       runOp op st = .ok (s', evs) →
       s'.gs.total_distributed = st.gs.total_distributed) := by
  have hb : ∀ (op : Op) (st s' : St) (evs : List Event), op.isAward = false →
      runOp op st = .ok (s', evs) →
      s'.gs.total_distributed = st.gs.total_distributed := by
    intro op st s' evs ha h
    cases op with
    | fundVault caller amount => rw [(fund_vault_frame h).1]
    | spendOp player amount ty now => rw [spend_tokens_frame h]
    | updateRates caller rates => exact update_rates_frame h
    | awardRace player stats now => simp [Op.isAward] at ha
    | awardChallenge player d cid now => simp [Op.isAward] at ha
    | awardTournament player p tid now => simp [Op.isAward] at ha
    | awardWelcome player now => simp [Op.isAward] at ha
    | awardStaking player r hours cid now => simp [Op.isAward] at ha
  refine ⟨?_, hb⟩
  intro op st s' evs h
  by_cases ha : op.isAward = true
  · obtain ⟨r, -, -, -, -, h5⟩ := award_ok ha h
    omega
  · rw [hb op st s' evs (by simpa using ha) h]

theorem total_distributed_monotone_witness :
    (sampleSt.gs.total_distributed ≤ sampleAfterStaking.gs.total_distributed) ∧
    ({ sampleSt with gs := { sampleSt.gs with token_rates := altRates } } :
        St).gs.total_distributed = sampleSt.gs.total_distributed :=
  ⟨total_distributed_monotone.1 (.awardStaking 7 .Legendary 10 5 0) sampleSt
     sampleAfterStaking
     [Event.reward { player := 7, amount := 250000000, reward_type := .Staking,
                     race_id := 5, timestamp := 0 }] (by rfl),
   total_distributed_monotone.2 (.updateRates 1 altRates) sampleSt
     { sampleSt with gs := { sampleSt.gs with token_rates := altRates } }
     [] (by decide) (by rfl)⟩

/-- C8: an authorized `update_token_rates` call replaces the rate table
wholesale with exactly the supplied table, with no validation of its
values, and leaves every other field of the state — authority, mint,
vault, `total_distributed`, bump, `is_initialized` — unchanged. -/
theorem update_rates_wholesale :
    ∀ (st : St) (caller : Nat) (new_rates : TokenRates),
      caller = st.gs.authority →
      runOp (.updateRates caller new_rates) st =
        .ok ({ st with gs := { st.gs with token_rates := new_rates } }, []) := by
  intro st caller rates h
  simp [runOp, update_token_rates, h]

theorem update_rates_wholesale_witness :
    runOp (.updateRates 1 altRates) sampleSt =
      .ok ({ sampleSt with
             gs := { sampleSt.gs with token_rates := altRates } }, []) :=
  update_rates_wholesale sampleSt 1 altRates (by decide)

/-- C9: no instruction of the program ever returns
`ErrorCode::InsufficientBalance` or `ErrorCode::GameStateNotInitialized`:
every failure of the eight state-touching instructions is one of
`Unauthorized`, `InvalidRewardAmount`, `InsufficientVaultBalance`, or an
error propagated from the external token ledger; `initialize_token` can
only be rejected by the environment's account-creation constraint, never
with a program error code. -/
theorem error_taxonomy :
    (∀ (op : Op) (st : St) (e : Err), runOp op st = .error e →
       e = .program .Unauthorized ∨ e = .program .InvalidRewardAmount ∨
       e = .program .InsufficientVaultBalance ∨
       e = .token .insufficientFunds) ∧
    (∀ (st : St) (a : InitArgs) (e : Err),
       initialize_token st a = .error e → e = .env .accountAlreadyInUse) := by
  constructor
  · intro op st e h
    cases op with
    | fundVault caller amount =>
      rw [runOp] at h
      unfold fund_vault at h
      split at h
      · rcases htr : splTransfer st.acctBal st.vaultBal amount with e2 | ⟨a', v'⟩ <;>
          rw [htr] at h
        · injection h with h
          subst h
          rw [splTransfer_error htr]
          simp
        · exact absurd h (by simp)
      · injection h with h
        subst h
        simp
    | awardRace player stats now =>
      rw [runOp] at h
      unfold award_race_tokens at h
      rcases exceptBind_error h with he | ⟨a, -, hp⟩
      · rw [okOr_eq_error he]
        simp
      · rcases payout_error hp with he | he | he <;> subst he <;> simp
    | awardChallenge player d cid now =>
      rw [runOp] at h
      unfold award_challenge_tokens at h
      rcases payout_error h with he | he | he <;> subst he <;> simp
    | awardTournament player p tid now =>
      rw [runOp] at h
      unfold award_tournament_tokens at h
      rcases payout_error h with he | he | he <;> subst he <;> simp
    | awardWelcome player now =>
      rw [runOp] at h
      unfold award_welcome_bonus at h
      rcases payout_error h with he | he | he <;> subst he <;> simp
    | awardStaking player r hours cid now =>
      rw [runOp] at h
      unfold award_staking_tokens at h
      rcases exceptBind_error h with he | ⟨a, -, hp⟩
      · rw [okOr_eq_error he]
        simp
      · rcases payout_error hp with he | he | he <;> subst he <;> simp
    | spendOp player amount ty now =>
      rw [runOp] at h
      unfold spend_tokens at h
      rcases htr : splBurn st.acctBal amount with e2 | p' <;> rw [htr] at h
      · injection h with h
        subst h
        rw [splBurn_error htr]
        simp
      · exact absurd h (by simp)
    | updateRates caller rates =>
      rw [runOp] at h
      unfold update_token_rates at h
      split at h
      · exact absurd h (by simp)
      · injection h with h
        subst h
        simp
  · intro st a e h
    unfold initialize_token at h
    split at h
    · injection h with h
      subst h
      rfl
    · exact absurd h (by simp)

theorem error_taxonomy_witness :
    ((.program .Unauthorized : Err) = .program .Unauthorized ∨
     (.program .Unauthorized : Err) = .program .InvalidRewardAmount ∨
     (.program .Unauthorized : Err) = .program .InsufficientVaultBalance ∨
     (.program .Unauthorized : Err) = .token .insufficientFunds) ∧
    (.env .accountAlreadyInUse : Err) = .env .accountAlreadyInUse :=
  ⟨error_taxonomy.1 (.fundVault 4 1000) sampleSt (.program .Unauthorized)
     (by rfl),
   error_taxonomy.2 initializedSt initArgsA (.env .accountAlreadyInUse)
     (by rfl)⟩

/-- A saturated ledger: `total_distributed` is already `2^64 - 1` while
the vault still holds a full welcome bonus. -/
def satSt : St :=
  { gs := { authority := 1, token_mint := 2, vault := 3,
            total_distributed := u64Size - 1,
            token_rates := defaultTokenRates, bump := 254,
            is_initialized := true },
    gsExists := true, vaultBal := 100000000, acctBal := 0 }

/-- C10 counterexample: a welcome-bonus call by a signing player fails
even though the vault balance covers `welcome_bonus` — the `checked_add`
updating `total_distributed` overflows, so the call errors with
`InvalidRewardAmount` instead of succeeding. -/
theorem welcome_bonus_not_unconditional :
    satSt.gs.token_rates.welcome_bonus ≤ satSt.vaultBal ∧
    runOp (.awardWelcome 7 0) satSt = .error (.program .InvalidRewardAmount) :=
  ⟨by decide, by rfl⟩

/-- C10 (amended): `award_welcome_bonus` performs no per-player
eligibility or first-time check: for every signing player and every
state, the call succeeds — transferring `welcome_bonus` and
incrementing `total_distributed` by it — whenever the vault balance is
at least `welcome_bonus` AND the incremented `total_distributed` still
fits in `u64`; the outcome depends only on those two numeric conditions,
never on the player or on how often the player was already paid, so
arbitrarily many repeated calls by the same player succeed while both
conditions persist. -/
theorem welcome_bonus_no_eligibility_check :
    ∀ (st : St) (player : Nat) (now : Int),
      st.gs.token_rates.welcome_bonus ≤ st.vaultBal →
      st.gs.total_distributed + st.gs.token_rates.welcome_bonus < u64Size →
      runOp (.awardWelcome player now) st =
        .ok ({ st with
               vaultBal := st.vaultBal - st.gs.token_rates.welcome_bonus,
               acctBal := st.acctBal + st.gs.token_rates.welcome_bonus,
               gs := { st.gs with
                       total_distributed := st.gs.total_distributed +
                         st.gs.token_rates.welcome_bonus } },
             [.reward { player := player,
                        amount := st.gs.token_rates.welcome_bonus,
                        reward_type := .WelcomeBonus, race_id := 0,
                        timestamp := now }]) := by
  intro st player now h1 h2
  simp [runOp, award_welcome_bonus, payout, splTransfer, checkedAdd,
    ge_iff_le, h1, h2]

theorem welcome_bonus_no_eligibility_check_witness :
    runOp (.awardWelcome 7 0) sampleSt =
      .ok ({ sampleSt with
             vaultBal := sampleSt.vaultBal -
               sampleSt.gs.token_rates.welcome_bonus,
             acctBal := sampleSt.acctBal +
               sampleSt.gs.token_rates.welcome_bonus,
             gs := { sampleSt.gs with
                     total_distributed := sampleSt.gs.total_distributed +
                       sampleSt.gs.token_rates.welcome_bonus } },
           [.reward { player := 7,
                      amount := sampleSt.gs.token_rates.welcome_bonus,
                      reward_type := .WelcomeBonus, race_id := 0,
                      timestamp := 0 }]) :=
  welcome_bonus_no_eligibility_check sampleSt 7 0 (by decide) (by decide)

end SpeedyToken
